import Mathlib

/-!
# Verification of the Gavi vaccination country-panel ETL pipeline

A shallow embedding, in Lean 4, of the panel-assembly, merging,
rule-based imputation and classification stages of the repository
(`combine_part_1_historical_data_country.py`,
`market_segment_gavi_vax_price.py`, `cleaning_for_analysis_2015_2024.py`,
`gavi_regimes.py`, `gavi_regimes_2_trajectory.py`,
`combine_part_2_hist_data_vax_cov.py`, `combine_cleaned_data.py`).

Tables are embedded as lists of typed row structures.  A dataframe cell
that can hold a number, a string or a missing value (NaN) is embedded as
the inductive type `Cell`; columns that are known to be string-typed or
numeric after normalization are embedded as `Option String` /
`Option Int` / `Option Rat`.  Numeric values use `Rat` (the prices and
coverage values are decimal constants).  Stages that can raise
(`ValueError`, pandas reindex failures, boolean-of-NA errors) are
embedded as `Except String`.  Console prints are diagnostics only and do
not change the data; where a printed diagnostic matters to a claim it is
embedded as a computed value (for example `badCountries`).

String primitives (strip, casefold, upper) are re-implemented over the
character list of a `String`, because the kernel cannot evaluate the
byte-indexed core implementations; on the ASCII data of this pipeline
they agree with the Python operations.
-/

set_option autoImplicit false

namespace GaviVax

/-- Whitespace recognized by Python `str.strip`. -/
def isSpaceChar (c : Char) : Bool :=
  c = ' ' || c = '\t' || c = '\n' || c = '\r' || c = '\x0b' || c = '\x0c'

/-- Strip leading and trailing whitespace from a character list. -/
def trimChars (l : List Char) : List Char :=
  ((l.dropWhile isSpaceChar).reverse.dropWhile isSpaceChar).reverse

/-- Python `str.strip`. -/
def strTrim (s : String) : String :=
  ⟨trimChars s.data⟩

/-- ASCII lower-casing of one character (Python `str.casefold` /
`str.lower` on the ASCII data of this pipeline). -/
def lowerChar (c : Char) : Char :=
  if 65 ≤ c.toNat ∧ c.toNat ≤ 90 then Char.ofNat (c.toNat + 32) else c

/-- Python `str.casefold`/`str.lower` (ASCII). -/
def strLower (s : String) : String :=
  ⟨s.data.map lowerChar⟩

/-- ASCII upper-casing of one character. -/
def upperChar (c : Char) : Char :=
  if 97 ≤ c.toNat ∧ c.toNat ≤ 122 then Char.ofNat (c.toNat - 32) else c

/-- Python `str.upper` (ASCII). -/
def strUpper (s : String) : String :=
  ⟨s.data.map upperChar⟩

/-- The decimal digit `d` as a character. -/
def digitChar (d : Nat) : Char := Char.ofNat (48 + d)

/-- Fuel-driven decimal rendering of a natural number. -/
def natToCharsAux : Nat → Nat → List Char
  | 0, _ => []
  | fuel + 1, n =>
      if n < 10 then [digitChar n] else natToCharsAux fuel (n / 10) ++ [digitChar (n % 10)]

/-- Decimal rendering of a natural number. -/
def natToChars (n : Nat) : List Char := natToCharsAux (n + 1) n

/-- A deterministic textual rendering of a rational, standing in for
Python `str()` on a numeric cell; the pipeline only ever compares such
renderings for equality. -/
def ratToStr (q : Rat) : String :=
  ⟨(if q.num < 0 then ['-'] else []) ++ natToChars q.num.natAbs ++
    (if q.den = 1 then [] else '/' :: natToChars q.den)⟩

/-- A dataframe cell: missing (NaN / pd.NA), numeric, or string. -/
inductive Cell where
  | na : Cell
  | num : Rat → Cell
  | str : String → Cell
deriving DecidableEq

/-- Python `str(x)` on a cell (`str(np.nan)` is `"nan"`). -/
def cellStr : Cell → String
  | Cell.na => "nan"
  | Cell.num q => ratToStr q
  | Cell.str s => s

/-- `pd.notna` on a cell. -/
def cellNotNA : Cell → Bool
  | Cell.na => false
  | _ => true

/-- Numeric value of a run of decimal digits (empty run gives 0). -/
def digitsNum (cs : List Char) : Nat :=
  cs.foldl (fun n c => 10 * n + (c.toNat - 48)) 0

/-- Parse a decimal literal the way `pd.to_numeric` accepts the values
of this pipeline: optional sign, digits, optional single decimal point.
Anything else (including scientific or textual input) coerces to
missing. -/
def parseRat (s : String) : Option Rat :=
  let t := trimChars s.data
  let neg := t.head? = some '-'
  let body := if t.head? = some '-' ∨ t.head? = some '+' then t.tail else t
  let mk : Rat → Rat := fun q => if neg then -q else q
  let w := body.takeWhile (fun c => c ≠ '.')
  let rest := body.dropWhile (fun c => c ≠ '.')
  match rest with
  | [] =>
      if w ≠ [] ∧ w.all Char.isDigit then some (mk (digitsNum w)) else none
  | _ :: f =>
      if (w ≠ [] ∨ f ≠ []) ∧ w.all Char.isDigit ∧ f.all Char.isDigit ∧ ¬ '.' ∈ f then
        some (mk ((digitsNum w : Rat) + (digitsNum f : Rat) / (10 : Rat) ^ f.length))
      else none

/-- `pd.to_numeric(x, errors="coerce")` on a cell. -/
def toNumericCell : Cell → Option Rat
  | Cell.na => none
  | Cell.num q => some q
  | Cell.str s => parseRat s

/-- `to_na` from `cleaning_for_analysis_2015_2024.py`: blank and the
textual N/A markers become missing. -/
def toNaCell (x : Cell) : Cell :=
  match x with
  | Cell.na => Cell.na
  | c =>
      let s := strTrim (cellStr c)
      if s = "" ∨ strLower s = "n/a" ∨ strLower s = "na" ∨ strLower s = "nan" then Cell.na else c

/-- `to_na` on a string-typed column value. -/
def toNaStr (x : Option String) : Option String :=
  match x with
  | none => none
  | some s =>
      let t := strTrim s
      if t = "" ∨ strLower t = "n/a" ∨ strLower t = "na" ∨ strLower t = "nan" then none else some s

end GaviVax

/-!
## Rule Engine — `cleaning_for_analysis_2015_2024.py`

One input row of the analysis dataset.  `year` is embedded after the
`pd.to_numeric` conversion of line 35; `first_year_vax_intro` and
`vax_fd_cov` keep their raw cell form because `to_na` and the
re-conversion of rule B act on the cells; `HPV_INT_DOSES` is the
string-typed dose label.  All five imputation rules and the final
harmonization are row-local (each mask reads only that row), so the
whole engine is embedded as a per-row function applied under the
2015–2024 window filter and the `gavi_supported` filter.  A missing
label makes the rule C text mask false in this embedding.
-/

namespace GaviVax.Engine

open GaviVax

structure AnaRow where
  country_code : Option String
  year : Option Rat
  gavi_supported : Option String
  vax_fd_cov : Cell
  first_year_vax_intro : Cell
  HPV_INT_DOSES : Option String
deriving DecidableEq

/-- Window filter, line 38: `df["year"].between(2015, 2024)`. -/
def inWindow (r : AnaRow) : Bool :=
  match r.year with
  | some y => decide (2015 ≤ y) && decide (y ≤ 2024)
  | none => false

/-- Filter of lines 41–42: `gavi_supported` present and not a blank/N.A. marker. -/
def gaviValid (r : AnaRow) : Bool :=
  match r.gavi_supported with
  | none => false
  | some s =>
      let t := strTrim s
      !(t = "" || t = "N/A" || t = "n/a" || t = "NA" || t = "na")

/-- `intro_year` (line 46): `to_na` then `to_numeric`, snapshot used by every mask. -/
def introYearOf (r : AnaRow) : Option Rat :=
  toNumericCell (toNaCell r.first_year_vax_intro)

/-- Dose-label column after `to_na` (line 48). -/
def label1Of (r : AnaRow) : Option String :=
  toNaStr r.HPV_INT_DOSES

/-- `hpv_int` snapshot of line 49 (stripped label, before any rule). -/
def hpvInt0Of (r : AnaRow) : Option String :=
  (label1Of r).map strTrim

/-- Coverage column after `to_na` (line 51). -/
def cov1Of (r : AnaRow) : Cell :=
  toNaCell r.vax_fd_cov

/-- `vax_num` snapshot of line 52. -/
def vaxNum0Of (r : AnaRow) : Option Rat :=
  toNumericCell (cov1Of r)

/-- Rule D mask (lines 58–60): intro year missing and coverage missing. -/
def firedDOf (r : AnaRow) : Bool :=
  (introYearOf r).isNone && (vaxNum0Of r).isNone

/-- Dose label after rule D (line 61). -/
def label2Of (r : AnaRow) : Option String :=
  if firedDOf r then some "no information report vax" else label1Of r

/-- Rule E mask (lines 67–68): intro year present and the pre-rule label
blank or missing (the mask reads the `hpv_int` snapshot of line 49). -/
def firedEOf (r : AnaRow) : Bool :=
  (introYearOf r).isSome &&
    (match hpvInt0Of r with
     | none => true
     | some s => strTrim s = "")

/-- Dose label after rule E (line 69). -/
def label3Of (r : AnaRow) : Option String :=
  if firedEOf r then some "vaccine introduced" else label2Of r

/-- `hpv_int` recomputed from the current label (line 72). -/
def hpvInt1Of (r : AnaRow) : Option String :=
  (label3Of r).map strTrim

/-- Rule A mask (line 80): intro year known and after the observation year. -/
def firedAOf (r : AnaRow) : Bool :=
  match introYearOf r, r.year with
  | some i, some y => decide (y < i)
  | _, _ => false

/-- Dose label after rule A (line 81). -/
def label4Of (r : AnaRow) : Option String :=
  if firedAOf r then some "Not_yet_introduced" else label3Of r

/-- Coverage after rule A (line 82). -/
def cov2Of (r : AnaRow) : Cell :=
  if firedAOf r then Cell.num 0 else cov1Of r

/-- `mask_post_intro` (line 89). -/
def maskPostIntroOf (r : AnaRow) : Bool :=
  match introYearOf r, r.year with
  | some i, some y => decide (i ≤ y)
  | _, _ => false

/-- Rule B mask (lines 89–92): post-intro and the current coverage cell
is missing or non-numeric (`vax_num2` is recomputed at line 91). -/
def firedBOf (r : AnaRow) : Bool :=
  maskPostIntroOf r && (toNumericCell (cov2Of r)).isNone

/-- Coverage after rule B (line 93). -/
def cov3Of (r : AnaRow) : Cell :=
  if firedBOf r then Cell.num 0 else cov2Of r

/-- Rule C mask (lines 99–100): intro year missing and the current label
equals "not yet introduced" stripped and casefolded. -/
def firedCOf (r : AnaRow) : Bool :=
  (introYearOf r).isNone &&
    (match hpvInt1Of r with
     | none => false
     | some s => decide (strLower (strTrim s) = "not yet introduced"))

/-- Coverage after rule C (line 101). -/
def cov4Of (r : AnaRow) : Cell :=
  if firedCOf r then Cell.na else cov3Of r

/-- Final harmonization (lines 118–125): strip every label and rewrite
the exact-cased "Not yet introduced" to "no information report vax". -/
def labelFinalOf (r : AnaRow) : Option String :=
  (label4Of r).map (fun s =>
    let t := strTrim s
    if t = "Not yet introduced" then "no information report vax" else t)

structure RuleTrace where
  firedD : Bool
  firedE : Bool
  firedA : Bool
  firedB : Bool
  firedC : Bool
  labelFinal : Option String
  covFinal : Cell
deriving DecidableEq

/-- The whole rule engine applied to one row. -/
def ruleEngineRow (r : AnaRow) : RuleTrace :=
  { firedD := firedDOf r
    firedE := firedEOf r
    firedA := firedAOf r
    firedB := firedBOf r
    firedC := firedCOf r
    labelFinal := labelFinalOf r
    covFinal := cov4Of r }

/-- The cleaning stage on the analysis window: rows of 2015–2024 with a
valid `gavi_supported`, each paired with its rule-engine outcome. -/
def cleaningStage (df : List AnaRow) : List (AnaRow × RuleTrace) :=
  ((df.filter inWindow).filter gaviValid).map (fun r => (r, ruleEngineRow r))

/-- Number of `true` entries in a list of rule-fired flags. -/
def countTrue : List Bool → Nat
  | [] => 0
  | b :: bs => (if b then 1 else 0) + countTrue bs

/-- A 2015 analysis-window row whose vaccine was introduced in 2018 and
whose dose label is blank: rules E and A both apply to it. -/
def exRowEA : AnaRow :=
  { country_code := some "AAA"
    year := some 2015
    gavi_supported := some "supported by gavi"
    vax_fd_cov := Cell.na
    first_year_vax_intro := Cell.num 2018
    HPV_INT_DOSES := none }

/-- A row with missing introduction year and missing coverage (rule D). -/
def exRowD : AnaRow :=
  { country_code := some "BBB"
    year := some 2016
    gavi_supported := some "supported by gavi"
    vax_fd_cov := Cell.na
    first_year_vax_intro := Cell.na
    HPV_INT_DOSES := some "x" }

/-- A row with missing introduction year, observed coverage, and an
all-lowercase "not yet introduced" dose label (rule C, no harmonize). -/
def exRowC : AnaRow :=
  { country_code := some "CCC"
    year := some 2016
    gavi_supported := some "supported by gavi"
    vax_fd_cov := Cell.num 50
    first_year_vax_intro := Cell.na
    HPV_INT_DOSES := some "not yet introduced" }

end GaviVax.Engine

/-!
## Panel Assembler — `combine_part_1_historical_data_country.py`

Outer-join of the income and Gavi history tables on
`(country_code, year)`, country-name resolution, balancing to the full
cartesian product of observed country codes and the years 2008–2025,
and the `gavi_supported` derivation.  The duplicate check of lines
43–51 only prints a warning and changes nothing; when the merged table
has duplicate `(country_code, year)` keys the subsequent
`set_index(...).reindex(...)` raises, which is embedded as the error
case of `combinePart1`.  The final sort of line 132 only permutes rows
and is omitted.  Missing keys (NaN) compare equal to each other in
pandas merges and duplicate checks, which `Option` equality mirrors.
-/

namespace GaviVax.Part1

open GaviVax

structure IncomeRow where
  country_code : Option String
  country_name : Option String
  year : Option Int
  income_class : Option String
deriving DecidableEq

structure GaviRow where
  country_code : Option String
  country_name : Option String
  year : Option Int
  gavi_spec : Option String
deriving DecidableEq

/-- One row of the outer-merged table (lines 56–61), before balancing:
the key columns, the two renamed name columns and the payload columns. -/
structure MergedRow where
  country_code : Option String
  year : Option Int
  country_name_income : Option String
  country_name_gavi : Option String
  income_class : Option String
  gavi_spec : Option String
deriving DecidableEq

/-- A matched row of the outer merge. -/
def mkMergedBoth (i : IncomeRow) (g : GaviRow) : MergedRow :=
  { country_code := i.country_code
    year := i.year
    country_name_income := i.country_name
    country_name_gavi := g.country_name
    income_class := i.income_class
    gavi_spec := g.gavi_spec }

/-- An income-only row of the outer merge. -/
def mkMergedLeft (i : IncomeRow) : MergedRow :=
  { country_code := i.country_code
    year := i.year
    country_name_income := i.country_name
    country_name_gavi := none
    income_class := i.income_class
    gavi_spec := none }

/-- A Gavi-only row of the outer merge. -/
def mkMergedRight (g : GaviRow) : MergedRow :=
  { country_code := g.country_code
    year := g.year
    country_name_income := none
    country_name_gavi := g.country_name
    income_class := none
    gavi_spec := g.gavi_spec }

/-- The Gavi rows matching the key of one income row. -/
def gaviMatches (gavi : List GaviRow) (i : IncomeRow) : List GaviRow :=
  gavi.filter (fun g => decide (g.country_code = i.country_code ∧ g.year = i.year))

/-- The merged rows contributed by one income row: its matches, or a
left-only row when it has none. -/
def mergeBlock (gavi : List GaviRow) (i : IncomeRow) : List MergedRow :=
  if (gaviMatches gavi i).isEmpty then [mkMergedLeft i]
  else (gaviMatches gavi i).map (mkMergedBoth i)

/-- `income.merge(gavi, on=["country_code", "year"], how="outer")`. -/
def outerMerge (income : List IncomeRow) (gavi : List GaviRow) : List MergedRow :=
  (income.flatMap (mergeBlock gavi))
  ++ ((gavi.filter (fun g =>
        decide (¬ ∃ i ∈ income, i.country_code = g.country_code ∧ i.year = g.year))).map
      mkMergedRight)

/-- Name rule of lines 74–76: prefer the income name, fall back to the
Gavi name. -/
def resolvedName (m : MergedRow) : Option String :=
  match m.country_name_income with
  | some n => some n
  | none => m.country_name_gavi

def keyOf (m : MergedRow) : Option String × Option Int :=
  (m.country_code, m.year)

/-- Non-unique `(country_code, year)` keys make the reindex of lines
92–97 raise. -/
def hasDupKeys (l : List MergedRow) : Bool :=
  !decide ((l.map keyOf).Nodup)

def YEAR_MIN : Int := 2008
def YEAR_MAX : Int := 2025

/-- `range(YEAR_MIN, YEAR_MAX + 1)` (line 82). -/
def allYears : List Int :=
  (List.range (YEAR_MAX - YEAR_MIN + 1).toNat).map (fun k => YEAR_MIN + (k : Int))

/-- `merged["country_code"].dropna().unique()` (line 85). -/
def allCodes (merged : List MergedRow) : List String :=
  (merged.filterMap (·.country_code)).dedup

/-- The country-level name lookup of lines 101–106: the name of the
first merged row of a code that carries both a code and a name. -/
def nameMap (merged : List MergedRow) (c : String) : Option String :=
  (merged.find? (fun m => decide (m.country_code = some c ∧ (resolvedName m).isSome))).bind
    resolvedName

/-- One balanced output row, key columns helper dropped (lines 92–117). -/
structure PanelRow where
  country_code : Option String
  year : Option Int
  country_name : Option String
  income_class : Option String
  gavi_spec : Option String
  gavi_supported : Option String
deriving DecidableEq

/-- The balanced row of key `(c, y)`: the reindex takes the merged row
of that key when one exists, else an all-null row; the name is then
back-filled from `nameMap` (lines 99–110). -/
def mkBalRow (merged : List MergedRow) (c : String) (y : Int) : PanelRow :=
  match merged.find? (fun m => decide (m.country_code = some c ∧ m.year = some y)) with
  | some m =>
      { country_code := some c
        year := some y
        country_name :=
          match resolvedName m with
          | some n => some n
          | none => nameMap merged c
        income_class := m.income_class
        gavi_spec := m.gavi_spec
        gavi_supported := none }
  | none =>
      { country_code := some c
        year := some y
        country_name := nameMap merged c
        income_class := none
        gavi_spec := none
        gavi_supported := none }

/-- The reindex of lines 87–97: the full cartesian product of observed
codes and the balanced year range. -/
def balancePanel (merged : List MergedRow) : List PanelRow :=
  (allCodes merged).flatMap (fun c => allYears.map (mkBalRow merged c))

/-- `gavi_supported` derivation of lines 140–147. -/
def addGaviSupported (r : PanelRow) : PanelRow :=
  { r with
    gavi_supported := some
      (match r.gavi_spec with
       | some s => if strTrim s ≠ "" then "supported by gavi" else "not supported by gavi"
       | none => "not supported by gavi") }

/-- The whole stage.  Balancing raises on duplicate merge keys; the
final year-count check of lines 120–129 only prints and never filters. -/
def combinePart1 (income : List IncomeRow) (gavi : List GaviRow) :
    Except String (List PanelRow) :=
  if hasDupKeys (outerMerge income gavi) then
    Except.error "cannot reindex on an axis with duplicate labels"
  else
    Except.ok ((balancePanel (outerMerge income gavi)).map addGaviSupported)

/-- `expected_n` of line 122. -/
def expected_n : Nat := (YEAR_MAX - YEAR_MIN + 1).toNat

/-- `merged_balanced.groupby("country_code")["year"].nunique()` for one
code (line 123). -/
def countDistinctYears (panel : List PanelRow) (c : String) : Nat :=
  (((panel.filter (fun r => decide (r.country_code = some c))).filterMap (·.year)).dedup).length

/-- The diagnostic `bad` of line 124: codes of the balanced panel whose
distinct-year count differs from `expected_n`. -/
def badCountries (panel : List PanelRow) : List String :=
  ((panel.filterMap (·.country_code)).dedup).filter
    (fun c => decide (countDistinctYears panel c ≠ expected_n))

/-- A one-row income table for evaluation. -/
def incomeEx : List IncomeRow :=
  [{ country_code := some "AAA", country_name := some "Aaland",
     year := some 2010, income_class := some "H" }]

/-- A one-row Gavi table for evaluation, on a different country. -/
def gaviEx : List GaviRow :=
  [{ country_code := some "BBB", country_name := some "Beeland",
     year := some 2011, gavi_spec := some "poorest" }]

/-- The balanced panel built from the two example tables. -/
def panelEx : List PanelRow :=
  match combinePart1 incomeEx gaviEx with
  | Except.ok p => p
  | Except.error _ => []

/-- A Gavi table carrying a duplicate `(country_code, year)` key. -/
def gaviDup : List GaviRow :=
  [{ country_code := some "AAA", country_name := some "Aaa",
     year := some 2010, gavi_spec := some "x1" },
   { country_code := some "AAA", country_name := some "Aaa",
     year := some 2010, gavi_spec := some "x2" }]

end GaviVax.Part1

/-!
## Keep-first deduplication — `drop_duplicates(subset=key, keep="first")`

Used by `combine_part_2_hist_data_vax_cov.py` (lines 67–73) on the
coverage and HPV tables and by `combine_cleaned_data.py` (lines 42–43)
on both sheets.
-/

namespace GaviVax.Dedup

/-- Keep the rows whose key has not been seen yet. -/
def dropDupFirstAux {α κ : Type} [DecidableEq κ] (key : α → κ) (seen : List κ) :
    List α → List α
  | [] => []
  | a :: as =>
      if key a ∈ seen then dropDupFirstAux key seen as
      else a :: dropDupFirstAux key (key a :: seen) as

/-- `drop_duplicates(subset=key, keep="first")`. -/
def dropDupFirst {α κ : Type} [DecidableEq κ] (key : α → κ) (l : List α) : List α :=
  dropDupFirstAux key [] l

/-- The conditional deduplication of `combine_part_2` lines 67–73: drop
duplicates, keeping the first, exactly when duplicates were counted. -/
def dedupIfDups {α κ : Type} [DecidableEq κ] (key : α → κ) (l : List α) : List α :=
  if decide (¬ (l.map key).Nodup) then dropDupFirst key l else l

end GaviVax.Dedup

/-!
## Coverage Merger — `combine_part_2_hist_data_vax_cov.py`

The claims touch two parts of this stage: the keep-first handling of
duplicate `(CODE, YEAR)` / `(country_code, year)` keys (lines 57–73)
and the `ori_dat_*` redundant-column elimination (lines 120–149).  Rows
are embedded with the columns those parts read; `CODE`/`country_code`
are strings because line 43 and 46 convert them with `astype(str)`
(which stringifies even missing values), `YEAR`/`year` are nullable
integers.
-/

namespace GaviVax.Merge2

open GaviVax

structure CovRow where
  CODE : String
  YEAR : Option Int
  COVERAGE : Cell
deriving DecidableEq

def covKey (r : CovRow) : String × Option Int := (r.CODE, r.YEAR)

/-- Lines 53 and 67–69: drop rows with a missing year key, then keep the
first row per key when duplicates exist. -/
def covPrepare (cov : List CovRow) : List CovRow :=
  Dedup.dedupIfDups covKey (cov.filter (fun r => r.YEAR.isSome))

structure HpvRow where
  country_code : String
  year : Option Int
  ori_dat_cov : Cell
  ori_dat_antigen : Cell
deriving DecidableEq

def hpvKey (r : HpvRow) : String × Option Int := (r.country_code, r.year)

/-- Lines 54 and 71–73, the same policy on the HPV table. -/
def hpvPrepare (hpv : List HpvRow) : List HpvRow :=
  Dedup.dedupIfDups hpvKey (hpv.filter (fun r => r.year.isSome))

/-- The columns of one merged row that the `ori_dat_*` comparison reads
(lines 124–139). -/
structure M2Row where
  ori_dat_cov : Cell
  ori_dat_antigen : Cell
  COVERAGE : Cell
deriving DecidableEq

/-- `compare_mask` (lines 129–132): both values non-missing. -/
def compareMaskRow (r : M2Row) : Bool :=
  cellNotNA r.ori_dat_cov && cellNotNA r.COVERAGE

/-- `identical` (lines 134–139): on every compare-mask row the two
values agree as strings. -/
def oriDatIdentical (rows : List M2Row) : Bool :=
  rows.all (fun r => !compareMaskRow r || (cellStr r.ori_dat_cov == cellStr r.COVERAGE))

def colsNeeded : List String := ["ori_dat_cov", "ori_dat_antigen", "COVERAGE"]

/-- The column-drop step of lines 124–149: when the needed columns are
present and the comparison says identical, the `ori_dat_*` columns are
dropped; otherwise the columns are unchanged. -/
def oriDatDropStep (rows : List M2Row) (cols : List String) : List String :=
  if colsNeeded.all (fun c => cols.contains c) then
    if oriDatIdentical rows then
      cols.filter (fun c => !(c == "ori_dat_cov" || c == "ori_dat_antigen"))
    else cols
  else cols

/-- Example merged rows whose compared values agree as strings. -/
def rowsEq : List M2Row :=
  [{ ori_dat_cov := Cell.num 50, ori_dat_antigen := Cell.str "HPV", COVERAGE := Cell.num 50 },
   { ori_dat_cov := Cell.na, ori_dat_antigen := Cell.str "HPV", COVERAGE := Cell.num 61 }]

/-- Example merged rows with one differing overlapping pair. -/
def rowsNe : List M2Row :=
  [{ ori_dat_cov := Cell.num 50, ori_dat_antigen := Cell.str "HPV", COVERAGE := Cell.num 50 },
   { ori_dat_cov := Cell.num 62, ori_dat_antigen := Cell.str "HPV", COVERAGE := Cell.num 61 }]

/-- An example merged-table column list. -/
def colsEx : List String :=
  ["country_code", "year", "ori_dat_cov", "ori_dat_antigen", "COVERAGE", "vax_fd_cov"]

/-- A coverage table with a duplicated `(CODE, YEAR)` key. -/
def covDupEx : List CovRow :=
  [{ CODE := "AAA", YEAR := some 2010, COVERAGE := Cell.num 50 },
   { CODE := "AAA", YEAR := some 2010, COVERAGE := Cell.num 60 },
   { CODE := "BBB", YEAR := some 2011, COVERAGE := Cell.num 70 }]

/-- The first occurrence of the duplicated coverage key. -/
def covDupKeep : CovRow := { CODE := "AAA", YEAR := some 2010, COVERAGE := Cell.num 50 }

/-- The second occurrence of the duplicated coverage key. -/
def covDupDrop : CovRow := { CODE := "AAA", YEAR := some 2010, COVERAGE := Cell.num 60 }

end GaviVax.Merge2

/-!
## Final combiner — `combine_cleaned_data.py`

Only the unconditional keep-first deduplication of both sheets on
`country_code` (lines 42–43) is claim-relevant.  The key is nullable
because the sheets are read with the pandas `string` dtype, which keeps
missing values.  The remaining columns of a row are collapsed into one
payload list. -/

namespace GaviVax.Cleaned

open GaviVax

structure SheetRow where
  country_code : Option String
  rowData : List Cell
deriving DecidableEq

def sheetKey (r : SheetRow) : Option String := r.country_code

/-- `drop_duplicates("country_code", keep="first")` on a sheet. -/
def sheetDedup (l : List SheetRow) : List SheetRow :=
  Dedup.dropDupFirst sheetKey l

end GaviVax.Cleaned

/-!
## Market segment and 2024 price — `market_segment_gavi_vax_price.py`

The name lists, alias table, segment precedence chain of
`assign_segment` (lines 201–230) and the price lookup
`PRICE_BY_SEGMENT` (lines 37–46).  Prices are rationals: 2.9 = 29/10,
4.5 = 9/2, 20.125 = 161/8, 23.375 = 187/8.
-/

namespace GaviVax.MktSeg

open GaviVax

def MICs4 : List String :=
  ["Botswana", "Maldives", "Morocco", "Seychelles", "Turkmenistan"]

def MICs5 : List String :=
  ["Egypt", "Algeria", "Venezuela", "Jordan", "Tunisia", "El Salvador",
   "Lebanon", "Eswatini", "Fiji", "Cape Verde", "Dominica", "Belize",
   "Vanuatu", "Maldives", "Samoa", "Tonga", "Saint Lucia",
   "Saint Vincent and the Grenadines", "Grenada", "Kosovo",
   "Tuvalu", "Micronesia"]

def MICs6 : List String :=
  ["Iraq", "Namibia", "Libya", "Serbia", "Bulgaria", "Costa Rica",
   "Botswana", "Jamaica", "Gabon", "Equatorial Guinea",
   "Northern Macedonia", "Mauritius", "Suriname", "Montenegro",
   "Palau", "Marshall Islands", "Georgia"]

/-- `PRICE_BY_SEGMENT` (lines 37–46): the dict literally maps HIC to 31
even though the comments around it state that HIC and NC get no price;
NC is absent, so it maps to missing. -/
def PRICE_BY_SEGMENT : String → Option Rat
  | "Gavi73" => some (29 / 10)
  | "gavi731" => some (29 / 10)
  | "MICs5" => some (29 / 10)
  | "MICs6" => some (9 / 2)
  | "MICs4" => some (161 / 8)
  | "MICs7" => some (187 / 8)
  | "HIC" => some 31
  | _ => none

/-- `norm_name` (lines 51–55): missing gives the empty string, present
values are stripped and casefolded. -/
def norm_name : Option String → String
  | none => ""
  | some x => strLower (strTrim x)

/-- `ALIASES` (lines 57–61). -/
def ALIASES : List (String × String) :=
  [(norm_name (some "North Macedonia"), norm_name (some "Northern Macedonia")),
   (norm_name (some "Cabo Verde"), norm_name (some "Cape Verde")),
   (norm_name (some "Micronesia (Federated States of)"), norm_name (some "Micronesia"))]

/-- `apply_alias` (lines 63–64). -/
def apply_alias (n : String) : String :=
  match ALIASES.find? (fun p => p.1 == n) with
  | some p => p.2
  | none => n

/-- `make_name_set` (lines 66–76), a list standing in for the Python
set; only membership is ever used. -/
def make_name_set (cols : List (Option String)) : List String :=
  cols.foldl
    (fun s c =>
      match c with
      | none => s
      | some v =>
          let txt := strTrim v
          if txt ≠ "" then
            let n := apply_alias (norm_name (some txt))
            if n ≠ "" then s ++ [n] else s
          else s)
    []

def MICs4_set : List String := MICs4.map (fun x => apply_alias (norm_name (some x)))
def MICs5_set : List String := MICs5.map (fun x => apply_alias (norm_name (some x)))
def MICs6_set : List String := MICs6.map (fun x => apply_alias (norm_name (some x)))

/-- One row of the merged `combo` table (lines 161–174). -/
structure ComboRow where
  country_code : Option String
  country_name_inc : Option String
  country_name_vax : Option String
  country_name_gavi : Option String
  gavi_2024 : Option String
  income_class : Option String
deriving DecidableEq

/-- `assign_segment` (lines 201–230): name buckets, then the
former-Gavi marker, then generic Gavi membership, then the income-class
fallback. -/
def assign_segment (r : ComboRow) : String :=
  let names := make_name_set [r.country_name_inc, r.country_name_vax, r.country_name_gavi]
  if names.any (fun n => MICs4_set.contains n) then "MICs4"
  else if names.any (fun n => MICs5_set.contains n) then "MICs5"
  else if names.any (fun n => MICs6_set.contains n) then "MICs6"
  else
    match r.gavi_2024 with
    | some g =>
        if strLower (strTrim g) = "mic_former_gavi" then "gavi731" else "Gavi73"
    | none =>
        let ic :=
          match r.income_class with
          | some v => strUpper (strTrim v)
          | none => ""
        if ic = "H" then "HIC"
        else if ic = "LM" ∨ ic = "UM" then "MICs7"
        else "NC"

/-- Line 233: the price column is the segment mapped through the price
dict. -/
def vax_price_2024 (r : ComboRow) : Option Rat :=
  PRICE_BY_SEGMENT (assign_segment r)

/-- A country outside every Gavi list whose income class is H: the
precedence chain ends in the HIC fallback. -/
def hicRow : ComboRow :=
  { country_code := some "XYZ"
    country_name_inc := some "Richland"
    country_name_vax := none
    country_name_gavi := none
    gavi_2024 := none
    income_class := some "H" }

end GaviVax.MktSeg

/-!
## Classifier — `gavi_regimes.py`

Normalization (lines 40–57), the restriction to rows with observed
numeric HPV first-dose coverage (line 49), the row-level regime (lines
70–82), and the country-level ever-flags (lines 90–107).  The list
comprehension of lines 80–82 raises a `TypeError` when a row reaches it
with a missing `gavi_supported` (comparing `pd.NA` in `if`), embedded
as the error case of the stage.
-/

namespace GaviVax.Regimes

open GaviVax

structure GRRow where
  country_code : Option String
  country_name : Option String
  year : Option Int
  income_class : Option String
  vax_fd_cov : Cell
  gavi_supported : Option String
  gavi_spec : Option String
deriving DecidableEq

/-- Line 43: upper-case the income class. -/
def upIncome (r : GRRow) : GRRow :=
  { r with income_class := r.income_class.map (fun s => strUpper (strTrim s)) }

/-- Lines 52–53: lower-case the support and eligibility labels. -/
def lowGavi (r : GRRow) : GRRow :=
  { r with
    gavi_supported := r.gavi_supported.map (fun s => strLower (strTrim s))
    gavi_spec := r.gavi_spec.map (fun s => strLower (strTrim s)) }

def retained (df : List GRRow) : List GRRow :=
  ((df.map upIncome).filter (fun r => (toNumericCell r.vax_fd_cov).isSome)).map lowGavi

def MIC_TAGS : List String := ["mic_former_gavi", "mic_never_gavi"]

def specInMicTags : Option String → Bool
  | some s => MIC_TAGS.contains s
  | none => false

/-- `classify_regime` (lines 72–78). -/
def classify_regime (gs : String) (spec : Option String) : String :=
  if gs = "not supported by gavi" then "Never Gavi"
  else if specInMicTags spec then "MICs approach / post-Gavi"
  else "Classic Gavi"

/-- The optional income label of lines 56–57. -/
def income_lbl : Option String → Option String
  | some "L" => some "LIC"
  | some "LM" => some "LMIC"
  | some "UM" => some "UMIC"
  | some "H" => some "HIC"
  | x => x

/-- A retained row with its regime computed (all its fields known to be
present in the success path). -/
structure GRMid where
  country_code : Option String
  country_name : Option String
  year : Option Int
  income_class : Option String
  vax_fd_cov : Rat
  gavi_supported : String
  gavi_spec : Option String
  gavi_regime_it : String
deriving DecidableEq

/-- The regime pass of lines 80–82 on the retained rows; rows with a
missing `gavi_supported` are handled by the stage-level error. -/
def midRows (df : List GRRow) : List GRMid :=
  (retained df).filterMap (fun r =>
    match r.gavi_supported, toNumericCell r.vax_fd_cov with
    | some gs, some cov =>
        some
          { country_code := r.country_code
            country_name := r.country_name
            year := r.year
            income_class := r.income_class
            vax_fd_cov := cov
            gavi_supported := gs
            gavi_spec := r.gavi_spec
            gavi_regime_it := classify_regime gs r.gavi_spec }
    | _, _ => none)

/-- `classic_by_country` (lines 90–95). -/
def classicCodes (ms : List GRMid) : List String :=
  (ms.filter (fun m => m.gavi_regime_it == "Classic Gavi")).filterMap (·.country_code)

/-- `supported_by_country` (lines 100–105). -/
def supportedCodes (ms : List GRMid) : List String :=
  (ms.filter (fun m => !(m.gavi_supported == "not supported by gavi"))).filterMap (·.country_code)

structure GROut where
  country_code : Option String
  country_name : Option String
  year : Option Int
  income_class : Option String
  income_class_lbl : Option String
  vax_fd_cov : Rat
  gavi_supported : String
  gavi_spec : Option String
  gavi_regime_it : String
  ever_classic_gavi : Int
  ever_supported_by_gavi : Int
  hic_flag : Int
deriving DecidableEq

/-- Broadcast of the ever-flags (lines 97 and 107) and the HIC flag
(line 113) onto one row; a missing code is never in the code lists. -/
def outRow (ms : List GRMid) (m : GRMid) : GROut :=
  { country_code := m.country_code
    country_name := m.country_name
    year := m.year
    income_class := m.income_class
    income_class_lbl := income_lbl m.income_class
    vax_fd_cov := m.vax_fd_cov
    gavi_supported := m.gavi_supported
    gavi_spec := m.gavi_spec
    gavi_regime_it := m.gavi_regime_it
    ever_classic_gavi :=
      if (match m.country_code with
          | some c => (classicCodes ms).contains c
          | none => false) then 1 else 0
    ever_supported_by_gavi :=
      if (match m.country_code with
          | some c => (supportedCodes ms).contains c
          | none => false) then 1 else 0
    hic_flag := if m.income_class = some "H" then 1 else 0 }

/-- The classifier stage. -/
def gaviRegimesStage (df : List GRRow) : Except String (List GROut) :=
  if (retained df).any (fun r => r.gavi_supported.isNone) then
    Except.error "boolean value of NA is ambiguous"
  else
    Except.ok ((midRows df).map (outRow (midRows df)))

/-- A two-row input: the 2015 row would be Classic Gavi but its
coverage is missing; the 2016 row is observed and never-supported. -/
def demoRaw : List GRRow :=
  [{ country_code := some "AAA", country_name := some "Aaa", year := some 2015,
     income_class := some "LM", vax_fd_cov := Cell.na,
     gavi_supported := some "supported by gavi", gavi_spec := none },
   { country_code := some "AAA", country_name := some "Aaa", year := some 2016,
     income_class := some "LM", vax_fd_cov := Cell.num 50,
     gavi_supported := some "not supported by gavi", gavi_spec := none }]

/-- The classifier output on `demoRaw`. -/
def demoOut : List GROut :=
  match gaviRegimesStage demoRaw with
  | Except.ok out => out
  | Except.error _ => []

/-- The single output row of `demoRaw`: only the 2016 observation
survives the coverage restriction and it is never-supported. -/
def demoOutRow : GROut :=
  { country_code := some "AAA", country_name := some "Aaa", year := some 2016,
    income_class := some "LM", income_class_lbl := some "LMIC", vax_fd_cov := 50,
    gavi_supported := "not supported by gavi", gavi_spec := none,
    gavi_regime_it := "Never Gavi", ever_classic_gavi := 0,
    ever_supported_by_gavi := 0, hic_flag := 0 }

end GaviVax.Regimes

/-!
## Trajectory — `gavi_regimes_2_trajectory.py`

`classify_trajectory` (lines 52–67) per `country_code` group, the merge
back onto every row (lines 69–78) and the hard missing-trajectory check
(lines 118–121).  A pandas groupby group is the in-order sublist of
rows with that (non-missing) key; rows with a missing key fall outside
every group and receive a missing trajectory from the left merge, which
the final check turns into a raise.
-/

namespace GaviVax.Traj

structure TRow where
  country_code : Option String
  year : Option Int
  gavi_regime_it : Option String
  ever_classic_gavi : Int
  ever_supported_by_gavi : Int
deriving DecidableEq

/-- `classify_trajectory` (lines 52–67): the regimes ever observed in
the group plus the two ever-flags of the first row. -/
def classify_trajectory (sub : List TRow) : Option String :=
  match sub with
  | [] => none
  | r0 :: _ =>
      let regimes := sub.filterMap (·.gavi_regime_it)
      some
        (if r0.ever_classic_gavi = 1 then
          if regimes.contains "MICs approach / post-Gavi" then "Classic → MIC (graduated)"
          else "Classic Gavi (always)"
        else
          if r0.ever_supported_by_gavi = 1 then "Never → MIC (MICs entry)"
          else "Never Gavi (always)")

/-- The groupby group of one country code. -/
def groupOf (df : List TRow) (c : String) : List TRow :=
  df.filter (fun r => decide (r.country_code = some c))

/-- `trajectory_map` (lines 69–74). -/
def trajectory_map (df : List TRow) (c : String) : Option String :=
  classify_trajectory (groupOf df c)

/-- The left merge of line 78 on one row. -/
def rowTrajectory (df : List TRow) (r : TRow) : Option String :=
  match r.country_code with
  | none => none
  | some c => trajectory_map df c

/-- The merged table: every row paired with its trajectory. -/
def mergedTraj (df : List TRow) : List (TRow × Option String) :=
  df.map (fun r => (r, rowTrajectory df r))

/-- The stage: the missing-trajectory check of lines 118–121 raises. -/
def trajStage (df : List TRow) : Except String (List (TRow × Option String)) :=
  let out := mergedTraj df
  if out.any (fun p => p.2.isNone) then
    Except.error "Countries with missing trajectory"
  else
    Except.ok out

/-- A two-row country that is ever-classic and shows the MICs approach
regime in one year. -/
def trajDemo : List TRow :=
  [{ country_code := some "GGG", year := some 2015,
     gavi_regime_it := some "Classic Gavi",
     ever_classic_gavi := 1, ever_supported_by_gavi := 1 },
   { country_code := some "GGG", year := some 2016,
     gavi_regime_it := some "MICs approach / post-Gavi",
     ever_classic_gavi := 1, ever_supported_by_gavi := 1 }]

/-- The trajectory-stage output on `trajDemo`. -/
def trajDemoOut : List (TRow × Option String) :=
  match trajStage trajDemo with
  | Except.ok out => out
  | Except.error _ => []

/-- The first row of `trajDemo`. -/
def trajDemoRow0 : TRow :=
  { country_code := some "GGG", year := some 2015,
    gavi_regime_it := some "Classic Gavi",
    ever_classic_gavi := 1, ever_supported_by_gavi := 1 }

/-- The output pair of the first demo row. -/
def trajDemoPair : TRow × Option String :=
  (trajDemoRow0, rowTrajectory trajDemo trajDemoRow0)

end GaviVax.Traj

/-!
## Theorems
-/

namespace GaviVax

open GaviVax.Engine

/-- Rule A needs a known introduction year while rule D needs a missing
one. -/
theorem firedD_firedA_exclusive (r : AnaRow) :
    firedDOf r = true → firedAOf r = false := by
  intro hD
  simp only [firedDOf, Bool.and_eq_true] at hD
  unfold firedAOf
  cases h : introYearOf r with
  | none => rfl
  | some i => rw [h] at hD; simp at hD

/-- Rule B needs a known introduction year while rule D needs a missing
one. -/
theorem firedD_firedB_exclusive (r : AnaRow) :
    firedDOf r = true → firedBOf r = false := by
  intro hD
  simp only [firedDOf, Bool.and_eq_true] at hD
  unfold firedBOf maskPostIntroOf
  cases h : introYearOf r with
  | none => rfl
  | some i => rw [h] at hD; simp at hD

/-- Rules A and B contradict each other on the comparison of the
introduction year with the observation year. -/
theorem firedA_firedB_exclusive (r : AnaRow) :
    firedAOf r = true → firedBOf r = false := by
  intro hA
  unfold firedAOf at hA
  unfold firedBOf maskPostIntroOf
  cases hi : introYearOf r with
  | none => rw [hi] at hA; simp at hA
  | some i =>
    cases hy : r.year with
    | none => rw [hi, hy] at hA; simp at hA
    | some y =>
      rw [hi, hy] at hA
      have hlt : y < i := of_decide_eq_true hA
      have hnot : ¬ (i ≤ y) := not_le.mpr hlt
      simp [hnot]

/-- If rule D fires it rewrites the label to "no information report
vax", so the rule C text test fails afterwards. -/
theorem firedD_firedC_exclusive (r : AnaRow) :
    firedDOf r = true → firedCOf r = false := by
  intro hD
  have hD2 := hD
  simp only [firedDOf, Bool.and_eq_true] at hD2
  have hE : firedEOf r = false := by
    unfold firedEOf
    cases h : introYearOf r with
    | none => rfl
    | some i => rw [h] at hD2; simp at hD2
  have hLab : hpvInt1Of r = some "no information report vax" := by
    unfold hpvInt1Of label3Of label2Of
    rw [hE, hD]
    simp only [if_false, if_true, Bool.false_eq_true, ite_false, ite_true, Option.map_some]
    decide
  unfold firedCOf
  rw [hLab]
  have hne : decide (strLower (strTrim "no information report vax") = "not yet introduced") = false := by
    decide
  simp [hne]

/-- Rule A needs a known introduction year while rule C needs a missing
one. -/
theorem firedA_firedC_exclusive (r : AnaRow) :
    firedAOf r = true → firedCOf r = false := by
  intro hA
  unfold firedAOf at hA
  unfold firedCOf
  cases hi : introYearOf r with
  | none => rw [hi] at hA; simp at hA
  | some i => simp [hi]

/-- Rule B needs a known introduction year while rule C needs a missing
one. -/
theorem firedB_firedC_exclusive (r : AnaRow) :
    firedBOf r = true → firedCOf r = false := by
  intro hB
  unfold firedBOf maskPostIntroOf at hB
  unfold firedCOf
  cases hi : introYearOf r with
  | none => rw [hi] at hB; simp at hB
  | some i => simp [hi]

/-- Rule E needs a known introduction year while rule D needs a missing
one. -/
theorem firedE_firedD_exclusive (r : AnaRow) :
    firedEOf r = true → firedDOf r = false := by
  intro hE
  simp only [firedEOf, Bool.and_eq_true] at hE
  unfold firedDOf
  cases h : introYearOf r with
  | none => rw [h] at hE; simp at hE
  | some i => simp

/-- Rule E needs a known introduction year while rule C needs a missing
one. -/
theorem firedE_firedC_exclusive (r : AnaRow) :
    firedEOf r = true → firedCOf r = false := by
  intro hE
  simp only [firedEOf, Bool.and_eq_true] at hE
  unfold firedCOf
  cases h : introYearOf r with
  | none => rw [h] at hE; simp at hE
  | some i => simp

/-- C4 (corrected): the original claim that at most one of the rules
D, E, A, B, C fires per row is false; what holds is that the four rules
D, A, B, C are mutually exclusive, and that rule E never co-fires with
rule D or rule C (it can co-fire with A or B). -/
theorem C4_rule_exclusivity_amended (r : AnaRow) :
    countTrue [firedDOf r, firedAOf r, firedBOf r, firedCOf r] ≤ 1 ∧
      countTrue [firedEOf r, firedDOf r, firedCOf r] ≤ 1 := by
  have hDA := firedD_firedA_exclusive r
  have hDB := firedD_firedB_exclusive r
  have hDC := firedD_firedC_exclusive r
  have hAB := firedA_firedB_exclusive r
  have hAC := firedA_firedC_exclusive r
  have hBC := firedB_firedC_exclusive r
  have hED := firedE_firedD_exclusive r
  have hEC := firedE_firedC_exclusive r
  constructor <;>
    cases hD : firedDOf r <;> cases hA : firedAOf r <;> cases hB : firedBOf r <;>
      cases hC : firedCOf r <;> cases hE : firedEOf r <;>
      simp_all [countTrue]

/-- C4 counterexample: on a 2015 analysis-window row with introduction
year 2018 and a blank dose label, rule E and rule A both fire, so the
claim that at most one of D, E, A, B, C fires is false; the row ends
with the values written by the later rule A. -/
theorem C4_counterexample :
    (exRowEA, ruleEngineRow exRowEA) ∈ cleaningStage [exRowEA] ∧
      firedEOf exRowEA = true ∧ firedAOf exRowEA = true ∧
      ¬ countTrue [firedDOf exRowEA, firedEOf exRowEA, firedAOf exRowEA,
          firedBOf exRowEA, firedCOf exRowEA] ≤ 1 ∧
      (ruleEngineRow exRowEA).labelFinal = some "Not_yet_introduced" ∧
      (ruleEngineRow exRowEA).covFinal = Cell.num 0 := by
  refine ⟨?_, ?_, ?_, ?_, ?_, ?_⟩ <;> decide

/-- C4 witness: the amended exclusivity evaluated on the rule-D row. -/
theorem C4_rule_exclusivity_amended_witness :
    countTrue [firedDOf exRowD, firedAOf exRowD, firedBOf exRowD, firedCOf exRowD] ≤ 1 ∧
      countTrue [firedEOf exRowD, firedDOf exRowD, firedCOf exRowD] ≤ 1 :=
  C4_rule_exclusivity_amended exRowD

/-- C5 (confirmed): a row with missing introduction year and missing
coverage gets the rule D label "no information report vax" and keeps it
through the final harmonization; a row with introduction year 2018
observed in 2015 gets the rule A label "Not_yet_introduced" and
coverage 0, both unchanged by the later rules and the harmonization. -/
theorem C5_rule_engine_determinism :
    (∀ r : AnaRow, introYearOf r = none → vaxNum0Of r = none →
        firedDOf r = true ∧ (ruleEngineRow r).labelFinal = some "no information report vax") ∧
      (∀ r : AnaRow, introYearOf r = some 2018 → r.year = some 2015 →
        firedAOf r = true ∧ (ruleEngineRow r).labelFinal = some "Not_yet_introduced" ∧
          (ruleEngineRow r).covFinal = Cell.num 0) := by
  constructor
  · intro r h1 h2
    have hD : firedDOf r = true := by simp [firedDOf, h1, h2]
    have hA : firedAOf r = false := by
      cases hy : r.year <;> simp [firedAOf, h1, hy]
    have hE : firedEOf r = false := by simp [firedEOf, h1]
    refine ⟨hD, ?_⟩
    simp only [ruleEngineRow, labelFinalOf, label4Of, label3Of, label2Of, hA, hD, hE,
      Bool.false_eq_true, if_false, if_true, ite_false, ite_true, Option.map_some]
    decide
  · intro r h1 h2
    have hA : firedAOf r = true := by
      simp only [firedAOf, h1, h2]
      decide
    have hC : firedCOf r = false := by simp [firedCOf, h1]
    have hM : maskPostIntroOf r = false := by
      simp only [maskPostIntroOf, h1, h2]
      decide
    have hB : firedBOf r = false := by simp [firedBOf, hM]
    refine ⟨hA, ?_, ?_⟩
    · simp only [ruleEngineRow, labelFinalOf, label4Of, hA, if_true, ite_true, Option.map_some]
      decide
    · simp [ruleEngineRow, cov4Of, cov3Of, cov2Of, hA, hB, hC]

/-- C5 witness: the two determinism scenarios evaluated on concrete
rows. -/
theorem C5_rule_engine_determinism_witness :
    (firedDOf exRowD = true ∧ (ruleEngineRow exRowD).labelFinal = some "no information report vax") ∧
      (firedAOf exRowEA = true ∧ (ruleEngineRow exRowEA).labelFinal = some "Not_yet_introduced" ∧
        (ruleEngineRow exRowEA).covFinal = Cell.num 0) :=
  ⟨C5_rule_engine_determinism.1 exRowD (by decide) (by decide),
    C5_rule_engine_determinism.2 exRowEA (by decide) (by decide)⟩

/-- C6 (confirmed): when the introduction year is missing and the
current dose label matches "not yet introduced" case-insensitively,
rule C nulls the coverage; the final harmonization rewrites the label
only for the exact-cased "Not yet introduced", so any other casing
keeps its (stripped) original label in the output. -/
theorem C6_rule_c_harmonize_asymmetry (r : AnaRow) (t : String)
    (h1 : introYearOf r = none) (h2 : hpvInt1Of r = some t)
    (h3 : strLower (strTrim t) = "not yet introduced") :
    firedCOf r = true ∧ (ruleEngineRow r).covFinal = Cell.na ∧
      (ruleEngineRow r).labelFinal =
        some (if t = "Not yet introduced" then "no information report vax" else t) := by
  obtain ⟨s0, hs0, hts⟩ : ∃ s0, label3Of r = some s0 ∧ strTrim s0 = t := by
    unfold hpvInt1Of at h2
    exact Option.map_eq_some'.mp h2
  have hA : firedAOf r = false := by
    cases hy : r.year <;> simp [firedAOf, h1, hy]
  have hC : firedCOf r = true := by
    unfold firedCOf
    rw [h1, h2]
    simp [h3]
  refine ⟨hC, ?_, ?_⟩
  · simp [ruleEngineRow, cov4Of, hC]
  · simp only [ruleEngineRow, labelFinalOf, label4Of, hA, Bool.false_eq_true, if_false,
      ite_false, hs0]
    rw [Option.map_some', hts]

/-- C6 witness: a concrete row with missing introduction year, observed
coverage and the all-lowercase label "not yet introduced" has its
coverage nulled by rule C and keeps its label in the output. -/
theorem C6_rule_c_harmonize_asymmetry_witness :
    firedCOf exRowC = true ∧ (ruleEngineRow exRowC).covFinal = Cell.na ∧
      (ruleEngineRow exRowC).labelFinal =
        some (if "not yet introduced" = "Not yet introduced" then "no information report vax"
              else "not yet introduced") :=
  C6_rule_c_harmonize_asymmetry exRowC "not yet introduced" (by decide) (by decide) (by decide)

/-- C2 (code_bug): the price dict contradicts the documented pricing
rule.  A country outside every Gavi list with income class H is
assigned segment HIC, and the code then assigns it the price 31 instead
of the documented null; the Gavi/MIC tiers receive their fixed
constants and only NC maps to no price. -/
theorem C2_hic_price_code_bug :
    MktSeg.assign_segment MktSeg.hicRow = "HIC" ∧
      MktSeg.vax_price_2024 MktSeg.hicRow = some 31 ∧
      MktSeg.PRICE_BY_SEGMENT "HIC" = some 31 ∧
      MktSeg.PRICE_BY_SEGMENT "NC" = none ∧
      MktSeg.PRICE_BY_SEGMENT "Gavi73" = some (29 / 10) ∧
      MktSeg.PRICE_BY_SEGMENT "gavi731" = some (29 / 10) ∧
      MktSeg.PRICE_BY_SEGMENT "MICs5" = some (29 / 10) ∧
      MktSeg.PRICE_BY_SEGMENT "MICs6" = some (9 / 2) ∧
      MktSeg.PRICE_BY_SEGMENT "MICs4" = some (161 / 8) ∧
      MktSeg.PRICE_BY_SEGMENT "MICs7" = some (187 / 8) := by
  refine ⟨by decide, by decide, rfl, rfl, rfl, rfl, rfl, rfl, rfl, rfl⟩

/-- C8 (confirmed): when every overlapping non-missing pair of
`ori_dat_cov` and `COVERAGE` agrees on its string representation,
exactly one of the two compared columns is dropped (`ori_dat_cov`
leaves, `COVERAGE` stays); when even one overlapping pair differs, the
columns are left untouched. -/
theorem C8_redundant_column_elimination (rows : List Merge2.M2Row) (cols : List String)
    (hcols : ∀ c ∈ Merge2.colsNeeded, c ∈ cols) :
    ((∀ r ∈ rows, Merge2.compareMaskRow r = true →
        cellStr r.ori_dat_cov = cellStr r.COVERAGE) →
      "ori_dat_cov" ∉ Merge2.oriDatDropStep rows cols ∧
        "COVERAGE" ∈ Merge2.oriDatDropStep rows cols) ∧
      ((∃ r ∈ rows, Merge2.compareMaskRow r = true ∧
          cellStr r.ori_dat_cov ≠ cellStr r.COVERAGE) →
        Merge2.oriDatDropStep rows cols = cols) := by
  have hpresent : Merge2.colsNeeded.all (fun c => cols.contains c) = true := by
    rw [List.all_eq_true]
    intro c hc
    exact List.elem_eq_true_of_mem (hcols c hc)
  constructor
  · intro hid
    have hident : Merge2.oriDatIdentical rows = true := by
      rw [Merge2.oriDatIdentical, List.all_eq_true]
      intro r hr
      by_cases hm : Merge2.compareMaskRow r = true
      · have heq := hid r hr hm
        simp [hm, heq]
      · rw [Bool.not_eq_true] at hm
        simp [hm]
    unfold Merge2.oriDatDropStep
    rw [hpresent, hident]
    simp only [if_true]
    constructor
    · intro hmem
      rw [List.mem_filter] at hmem
      simp at hmem
    · rw [List.mem_filter]
      refine ⟨hcols "COVERAGE" (by simp [Merge2.colsNeeded]), by decide⟩
  · rintro ⟨r, hr, hm, hne⟩
    have hident : Merge2.oriDatIdentical rows = false := by
      cases hI : Merge2.oriDatIdentical rows
      · rfl
      · exfalso
        rw [Merge2.oriDatIdentical, List.all_eq_true] at hI
        have hthis := hI r hr
        rw [hm] at hthis
        simp only [Bool.not_true, Bool.false_or] at hthis
        exact hne (by simpa [beq_iff_eq] using hthis)
    unfold Merge2.oriDatDropStep
    rw [hpresent, hident]
    simp

/-- C8 witness: the drop on string-equal example rows and the no-drop
on differing example rows. -/
theorem C8_redundant_column_elimination_witness :
    ("ori_dat_cov" ∉ Merge2.oriDatDropStep Merge2.rowsEq Merge2.colsEx ∧
        "COVERAGE" ∈ Merge2.oriDatDropStep Merge2.rowsEq Merge2.colsEx) ∧
      Merge2.oriDatDropStep Merge2.rowsNe Merge2.colsEx = Merge2.colsEx :=
  ⟨(C8_redundant_column_elimination Merge2.rowsEq Merge2.colsEx (by decide)).1 (by decide),
    (C8_redundant_column_elimination Merge2.rowsNe Merge2.colsEx (by decide)).2 (by decide)⟩

/-- Kept rows of the keep-first pass: the key was unseen and the row is
the first of its key in the input. -/
theorem dropDupFirstAux_mem_find {α κ : Type} [DecidableEq κ] (key : α → κ) :
    ∀ (l : List α) (seen : List κ) (a : α), a ∈ Dedup.dropDupFirstAux key seen l →
      key a ∉ seen ∧ l.find? (fun b => decide (key b = key a)) = some a := by
  intro l
  induction l with
  | nil => intro seen a ha; simp [Dedup.dropDupFirstAux] at ha
  | cons x xs ih =>
    intro seen a ha
    simp only [Dedup.dropDupFirstAux] at ha
    by_cases hx : key x ∈ seen
    · rw [if_pos hx] at ha
      obtain ⟨hnot, hfind⟩ := ih seen a ha
      have hne : decide (key x = key a) = false := by
        rw [decide_eq_false_iff_not]
        intro he
        exact hnot (he ▸ hx)
      exact ⟨hnot, by simp [List.find?_cons, hne, hfind]⟩
    · rw [if_neg hx] at ha
      rcases List.mem_cons.mp ha with rfl | hmem
      · exact ⟨hx, by simp [List.find?_cons]⟩
      · obtain ⟨hnot, hfind⟩ := ih (key x :: seen) a hmem
        have hne : decide (key x = key a) = false := by
          rw [decide_eq_false_iff_not]
          intro he
          exact hnot (by simp [he])
        refine ⟨fun hc => hnot (List.mem_cons_of_mem _ hc), ?_⟩
        simp [List.find?_cons, hne, hfind]

/-- The keys of the keep-first pass are pairwise distinct. -/
theorem dropDupFirstAux_keys_nodup {α κ : Type} [DecidableEq κ] (key : α → κ) :
    ∀ (l : List α) (seen : List κ), ((Dedup.dropDupFirstAux key seen l).map key).Nodup := by
  intro l
  induction l with
  | nil => intro seen; simp [Dedup.dropDupFirstAux]
  | cons x xs ih =>
    intro seen
    simp only [Dedup.dropDupFirstAux]
    by_cases hx : key x ∈ seen
    · rw [if_pos hx]; exact ih seen
    · rw [if_neg hx]
      simp only [List.map_cons, List.nodup_cons]
      constructor
      · intro hmem
        rw [List.mem_map] at hmem
        obtain ⟨b, hb, hkb⟩ := hmem
        exact (dropDupFirstAux_mem_find key xs (key x :: seen) b hb).1 (by simp [hkb])
      · exact ih (key x :: seen)

/-- Every input key survives the keep-first pass (or was in `seen`). -/
theorem dropDupFirstAux_key_covered {α κ : Type} [DecidableEq κ] (key : α → κ) :
    ∀ (l : List α) (seen : List κ) (a : α), a ∈ l →
      key a ∈ seen ∨ ∃ b ∈ Dedup.dropDupFirstAux key seen l, key b = key a := by
  intro l
  induction l with
  | nil => intro seen a ha; simp at ha
  | cons x xs ih =>
    intro seen a ha
    simp only [Dedup.dropDupFirstAux]
    rcases List.mem_cons.mp ha with rfl | hmem
    · by_cases hx : key a ∈ seen
      · exact Or.inl hx
      · right
        rw [if_neg hx]
        exact ⟨a, List.mem_cons_self a _, rfl⟩
    · by_cases hx : key x ∈ seen
      · rw [if_pos hx]; exact ih seen a hmem
      · rw [if_neg hx]
        rcases ih (key x :: seen) a hmem with hseen | ⟨b, hb, hkb⟩
        · rcases List.mem_cons.mp hseen with heq | hseen2
          · exact Or.inr ⟨x, List.mem_cons_self x _, heq.symm⟩
          · exact Or.inl hseen2
        · exact Or.inr ⟨b, List.mem_cons_of_mem _ hb, hkb⟩

/-- With pairwise-distinct keys, the first row matching the key of a
member is that member. -/
theorem find?_key_self {α κ : Type} [DecidableEq κ] (key : α → κ) :
    ∀ (l : List α), (l.map key).Nodup → ∀ a ∈ l, l.find? (fun b => decide (key b = key a)) = some a := by
  intro l
  induction l with
  | nil => intro _ a ha; simp at ha
  | cons x xs ih =>
    intro hnd a ha
    simp only [List.map_cons, List.nodup_cons] at hnd
    rcases List.mem_cons.mp ha with rfl | hmem
    · simp [List.find?_cons]
    · have hne : decide (key x = key a) = false := by
        rw [decide_eq_false_iff_not]
        intro he
        exact hnd.1 (he ▸ List.mem_map_of_mem key hmem)
      simp [List.find?_cons, hne, ih hnd.2 a hmem]

/-- The conditional keep-first of the Coverage Merger: unique keys out,
only first occurrences kept, and every input key still represented. -/
theorem dedupIfDups_spec {α κ : Type} [DecidableEq κ] (key : α → κ) (l : List α) :
    ((Dedup.dedupIfDups key l).map key).Nodup ∧
      (∀ a ∈ Dedup.dedupIfDups key l, l.find? (fun b => decide (key b = key a)) = some a) ∧
      (∀ a ∈ l, ∃ b ∈ Dedup.dedupIfDups key l, key b = key a) := by
  unfold Dedup.dedupIfDups
  by_cases h : (l.map key).Nodup
  · rw [if_neg (by simpa using h)]
    exact ⟨h, fun a ha => find?_key_self key l h a ha, fun a ha => ⟨a, ha, rfl⟩⟩
  · rw [if_pos (by simpa using h)]
    refine ⟨dropDupFirstAux_keys_nodup key l [], ?_, ?_⟩
    · intro a ha
      exact (dropDupFirstAux_mem_find key l [] a ha).2
    · intro a ha
      rcases dropDupFirstAux_key_covered key l [] a ha with hc | hgood
      · simp at hc
      · exact hgood

/-- The unconditional keep-first of the final combiner, same contract. -/
theorem dropDupFirst_spec {α κ : Type} [DecidableEq κ] (key : α → κ) (l : List α) :
    ((Dedup.dropDupFirst key l).map key).Nodup ∧
      (∀ a ∈ Dedup.dropDupFirst key l, l.find? (fun b => decide (key b = key a)) = some a) ∧
      (∀ a ∈ l, ∃ b ∈ Dedup.dropDupFirst key l, key b = key a) := by
  refine ⟨dropDupFirstAux_keys_nodup key l [], ?_, ?_⟩
  · intro a ha
    exact (dropDupFirstAux_mem_find key l [] a ha).2
  · intro a ha
    rcases dropDupFirstAux_key_covered key l [] a ha with hc | hgood
    · simp at hc
    · exact hgood

/-- C9 (corrected, keep-first part): in the Coverage Merger the
coverage and HPV inputs, and in the final combiner both sheets, a
non-unique expected-unique key is resolved by keeping exactly the first
row of each key: output keys are unique, every kept row is the first of
its key, and every input key remains represented. -/
theorem C9_keep_first_policy_amended :
    (∀ cov : List Merge2.CovRow,
        ((Merge2.covPrepare cov).map Merge2.covKey).Nodup ∧
          (∀ a ∈ Merge2.covPrepare cov,
            (cov.filter (fun r => r.YEAR.isSome)).find?
              (fun b => decide (Merge2.covKey b = Merge2.covKey a)) = some a) ∧
          (∀ a ∈ cov.filter (fun r => r.YEAR.isSome),
            ∃ b ∈ Merge2.covPrepare cov, Merge2.covKey b = Merge2.covKey a)) ∧
      (∀ hpv : List Merge2.HpvRow,
        ((Merge2.hpvPrepare hpv).map Merge2.hpvKey).Nodup ∧
          (∀ a ∈ Merge2.hpvPrepare hpv,
            (hpv.filter (fun r => r.year.isSome)).find?
              (fun b => decide (Merge2.hpvKey b = Merge2.hpvKey a)) = some a) ∧
          (∀ a ∈ hpv.filter (fun r => r.year.isSome),
            ∃ b ∈ Merge2.hpvPrepare hpv, Merge2.hpvKey b = Merge2.hpvKey a)) ∧
      (∀ sheet : List Cleaned.SheetRow,
        ((Cleaned.sheetDedup sheet).map Cleaned.sheetKey).Nodup ∧
          (∀ a ∈ Cleaned.sheetDedup sheet,
            sheet.find? (fun b => decide (Cleaned.sheetKey b = Cleaned.sheetKey a)) = some a) ∧
          (∀ a ∈ sheet, ∃ b ∈ Cleaned.sheetDedup sheet,
            Cleaned.sheetKey b = Cleaned.sheetKey a)) :=
  ⟨fun cov => dedupIfDups_spec Merge2.covKey (cov.filter (fun r => r.YEAR.isSome)),
    fun hpv => dedupIfDups_spec Merge2.hpvKey (hpv.filter (fun r => r.year.isSome)),
    fun sheet => dropDupFirst_spec Cleaned.sheetKey sheet⟩

/-- C9 counterexample: the Panel Assembler does not follow the claimed
keep-first policy.  On a Gavi table with a duplicated
`(country_code, year)` key the outer merge keeps both rows, and the
stage then fails in the balancing reindex instead of keeping the first
occurrence and proceeding. -/
theorem C9_counterexample :
    (Part1.outerMerge [] Part1.gaviDup).length = 2 ∧
      (∃ m ∈ Part1.outerMerge [] Part1.gaviDup, m.gavi_spec = some "x1") ∧
      (∃ m ∈ Part1.outerMerge [] Part1.gaviDup, m.gavi_spec = some "x2") ∧
      Part1.combinePart1 [] Part1.gaviDup =
        Except.error "cannot reindex on an axis with duplicate labels" :=
  ⟨by decide, by decide, by decide, rfl⟩

/-- C9 witness: the keep-first contract evaluated on a coverage table
with a duplicated key. -/
theorem C9_keep_first_policy_amended_witness :
    ((Merge2.covPrepare Merge2.covDupEx).map Merge2.covKey).Nodup ∧
      (Merge2.covDupEx.filter (fun r => r.YEAR.isSome)).find?
        (fun b => decide (Merge2.covKey b = Merge2.covKey Merge2.covDupKeep)) = some Merge2.covDupKeep ∧
      (∃ b ∈ Merge2.covPrepare Merge2.covDupEx,
        Merge2.covKey b = Merge2.covKey Merge2.covDupDrop) :=
  ⟨(C9_keep_first_policy_amended.1 Merge2.covDupEx).1,
    (C9_keep_first_policy_amended.1 Merge2.covDupEx).2.1 Merge2.covDupKeep (by decide),
    (C9_keep_first_policy_amended.1 Merge2.covDupEx).2.2 Merge2.covDupDrop (by decide)⟩

/-- A successful trajectory stage returns exactly the merged table. -/
theorem trajStage_ok (df : List Traj.TRow) (out : List (Traj.TRow × Option String))
    (h : Traj.trajStage df = Except.ok out) : out = Traj.mergedTraj df := by
  unfold Traj.trajStage at h
  by_cases hc : (Traj.mergedTraj df).any (fun p => p.2.isNone) = true
  · rw [if_pos hc] at h
    cases h
  · rw [if_neg hc] at h
    injection h with h
    exact h.symm

/-- The trajectory of a row depends only on its country code. -/
theorem rowTrajectory_code (df : List Traj.TRow) (r q : Traj.TRow)
    (h : r.country_code = q.country_code) :
    Traj.rowTrajectory df r = Traj.rowTrajectory df q := by
  unfold Traj.rowTrajectory
  rw [h]

/-- The MICs regime appears in the group of a code exactly when some row
of the table carries that code and that regime. -/
theorem group_contains_mic (df : List Traj.TRow) (c : String) :
    (((Traj.groupOf df c).filterMap (fun r => r.gavi_regime_it)).contains
        "MICs approach / post-Gavi" = true) ↔
      ∃ r ∈ df, r.country_code = some c ∧
        r.gavi_regime_it = some "MICs approach / post-Gavi" := by
  rw [List.contains, List.elem_iff]
  constructor
  · intro hmem
    obtain ⟨r, hr, hreg⟩ := List.mem_filterMap.mp hmem
    obtain ⟨hrdf, hrc⟩ := List.mem_filter.mp hr
    exact ⟨r, hrdf, by simpa using hrc, hreg⟩
  · rintro ⟨r, hrdf, hrc, hreg⟩
    exact List.mem_filterMap.mpr ⟨r, List.mem_filter.mpr ⟨hrdf, by simp [hrc]⟩, hreg⟩

/-- Unfolding of `classify_trajectory` on a nonempty group. -/
theorem classify_trajectory_cons (r0 : Traj.TRow) (rest : List Traj.TRow) :
    Traj.classify_trajectory (r0 :: rest) =
      some (if r0.ever_classic_gavi = 1 then
          (if ((r0 :: rest).filterMap (fun x => x.gavi_regime_it)).contains
                "MICs approach / post-Gavi" = true
           then "Classic → MIC (graduated)" else "Classic Gavi (always)")
        else if r0.ever_supported_by_gavi = 1 then "Never → MIC (MICs entry)"
        else "Never Gavi (always)") := rfl

/-- C3 (confirmed): the trajectory is a pure function of the country
history — same-code rows get identical values; under country-constant
ever-flags the value is exactly the claimed four-way case split on the
flags and the presence of the MICs regime; and a missing trajectory for
any row makes the stage raise. -/
theorem C3_trajectory_function :
    (∀ df out, Traj.trajStage df = Except.ok out →
      (∀ p ∈ out, ∀ q ∈ out, p.1.country_code = q.1.country_code → p.2 = q.2) ∧
        (∀ (c : String) (e s : Int),
          (∀ r ∈ df, r.country_code = some c →
            r.ever_classic_gavi = e ∧ r.ever_supported_by_gavi = s) →
          ∀ p ∈ out, p.1.country_code = some c →
            p.2 = some (if e = 1 then
                (if ∃ r ∈ df, r.country_code = some c ∧
                      r.gavi_regime_it = some "MICs approach / post-Gavi"
                 then "Classic → MIC (graduated)" else "Classic Gavi (always)")
              else if s = 1 then "Never → MIC (MICs entry)"
              else "Never Gavi (always)"))) ∧
      (∀ df : List Traj.TRow, (∃ p ∈ Traj.mergedTraj df, p.2 = none) →
        Traj.trajStage df = Except.error "Countries with missing trajectory") := by
  constructor
  · intro df out hok
    have hout := trajStage_ok df out hok
    subst hout
    constructor
    · intro p hp q hq hcode
      obtain ⟨r, _, rfl⟩ := List.mem_map.mp hp
      obtain ⟨r2, _, rfl⟩ := List.mem_map.mp hq
      exact rowTrajectory_code df r r2 hcode
    · intro c e s hflag p hp hc
      obtain ⟨r, hr, rfl⟩ := List.mem_map.mp hp
      have hrc : r.country_code = some c := hc
      have hrow : Traj.rowTrajectory df r = Traj.trajectory_map df c := by
        unfold Traj.rowTrajectory
        rw [hrc]
      rw [hrow]
      unfold Traj.trajectory_map
      have hrg : r ∈ Traj.groupOf df c :=
        List.mem_filter.mpr ⟨hr, by simp [hrc]⟩
      cases hg : Traj.groupOf df c with
      | nil => rw [hg] at hrg; simp at hrg
      | cons r0 rest =>
        have hr0 : r0 ∈ Traj.groupOf df c := by
          rw [hg]
          exact List.mem_cons_self r0 rest
        obtain ⟨hr0df, hr0cd⟩ := List.mem_filter.mp hr0
        have hr0c : r0.country_code = some c := by simpa using hr0cd
        obtain ⟨he, hs⟩ := hflag r0 hr0df hr0c
        have hmic := group_contains_mic df c
        rw [hg] at hmic
        show Traj.classify_trajectory (r0 :: rest) = _
        rw [classify_trajectory_cons, he, hs]
        by_cases hM : ∃ r2 ∈ df, r2.country_code = some c ∧
            r2.gavi_regime_it = some "MICs approach / post-Gavi"
        · have hcont := hmic.mpr hM
          simp only [hcont, hM, if_true, ite_true]
        · have hcont : ((r0 :: rest).filterMap (fun r2 => r2.gavi_regime_it)).contains
              "MICs approach / post-Gavi" = false := by
            cases hcc : ((r0 :: rest).filterMap (fun r2 => r2.gavi_regime_it)).contains
                "MICs approach / post-Gavi"
            · rfl
            · exact absurd (hmic.mp hcc) hM
          simp only [hcont, hM, if_false, ite_false, Bool.false_eq_true]
  · intro df hex
    obtain ⟨p, hp, hp2⟩ := hex
    unfold Traj.trajStage
    rw [if_pos (List.any_eq_true.mpr ⟨p, hp, by simp [hp2]⟩)]

/-- C3 witness: the demo country with ever-classic flags and one MICs
year classifies as graduated on every row. -/
theorem C3_trajectory_function_witness :
    Traj.trajDemoPair.2 = some (if (1 : Int) = 1 then
        (if ∃ r ∈ Traj.trajDemo, r.country_code = some "GGG" ∧
              r.gavi_regime_it = some "MICs approach / post-Gavi"
         then "Classic → MIC (graduated)" else "Classic Gavi (always)")
      else if (1 : Int) = 1 then "Never → MIC (MICs entry)"
      else "Never Gavi (always)") :=
  ((C3_trajectory_function.1 Traj.trajDemo Traj.trajDemoOut rfl).2 "GGG" 1 1
    (by decide) Traj.trajDemoPair (by decide) (by decide))

/-- A successful classifier run returns the regime rows with flags, and
every retained row had a present support label. -/
theorem gaviRegimesStage_ok (df : List Regimes.GRRow) (out : List Regimes.GROut)
    (h : Regimes.gaviRegimesStage df = Except.ok out) :
    out = (Regimes.midRows df).map (Regimes.outRow (Regimes.midRows df)) ∧
      ∀ r ∈ Regimes.retained df, r.gavi_supported.isSome = true := by
  unfold Regimes.gaviRegimesStage at h
  by_cases hc : (Regimes.retained df).any (fun r => r.gavi_supported.isNone) = true
  · rw [if_pos hc] at h
    cases h
  · rw [if_neg hc] at h
    injection h with h
    refine ⟨h.symm, ?_⟩
    intro r hr
    cases hgs : r.gavi_supported with
    | none =>
        exact absurd (List.any_eq_true.mpr ⟨r, hr, by simp [hgs]⟩) hc
    | some gs => rfl

/-- Every regime row carries the regime computed by `classify_regime`
from its own (normalized) labels. -/
theorem midRows_regime (df : List Regimes.GRRow) :
    ∀ m ∈ Regimes.midRows df,
      m.gavi_regime_it = Regimes.classify_regime m.gavi_supported m.gavi_spec := by
  intro m hm
  obtain ⟨r, _, heq⟩ := List.mem_filterMap.mp hm
  cases hgs : r.gavi_supported with
  | none => rw [hgs] at heq; simp at heq
  | some gs =>
    cases hcov : toNumericCell r.vax_fd_cov with
    | none => rw [hgs, hcov] at heq; simp at heq
    | some cov =>
      rw [hgs, hcov] at heq
      simp only [Option.some.injEq] at heq
      rw [← heq]

/-- `specInMicTags` holds exactly on the two MIC-transition tags. -/
theorem specInMicTags_iff (spec : Option String) :
    Regimes.specInMicTags spec = true ↔
      (spec = some "mic_former_gavi" ∨ spec = some "mic_never_gavi") := by
  cases spec with
  | none => simp [Regimes.specInMicTags]
  | some s =>
    simp [Regimes.specInMicTags, Regimes.MIC_TAGS, List.contains, List.elem_iff]

/-- `classify_regime` as the claim states it. -/
theorem classify_regime_cases (gs : String) (spec : Option String) :
    Regimes.classify_regime gs spec =
      (if gs = "not supported by gavi" then "Never Gavi"
       else if spec = some "mic_former_gavi" ∨ spec = some "mic_never_gavi"
       then "MICs approach / post-Gavi" else "Classic Gavi") := by
  unfold Regimes.classify_regime
  by_cases hgs : gs = "not supported by gavi"
  · rw [if_pos hgs, if_pos hgs]
  · rw [if_neg hgs, if_neg hgs]
    by_cases hsp : spec = some "mic_former_gavi" ∨ spec = some "mic_never_gavi"
    · rw [if_pos ((specInMicTags_iff spec).mpr hsp), if_pos hsp]
    · have hfalse : Regimes.specInMicTags spec = false := by
        cases hb : Regimes.specInMicTags spec
        · rfl
        · exact absurd ((specInMicTags_iff spec).mp hb) hsp
      rw [hfalse, if_neg hsp]
      simp

/-- C7 (confirmed): in the classifier output every row's regime is
Never Gavi when its support label is the not-supported label, else the
MICs approach when its eligibility tag is one of the two MIC-transition
tags, else Classic Gavi. -/
theorem C7_regime_classification (df : List Regimes.GRRow) (out : List Regimes.GROut)
    (h : Regimes.gaviRegimesStage df = Except.ok out) :
    ∀ r ∈ out, r.gavi_regime_it =
      (if r.gavi_supported = "not supported by gavi" then "Never Gavi"
       else if r.gavi_spec = some "mic_former_gavi" ∨ r.gavi_spec = some "mic_never_gavi"
       then "MICs approach / post-Gavi" else "Classic Gavi") := by
  intro r hr
  obtain ⟨hout, _⟩ := gaviRegimesStage_ok df out h
  rw [hout] at hr
  obtain ⟨m, hm, rfl⟩ := List.mem_map.mp hr
  show m.gavi_regime_it = _
  rw [midRows_regime df m hm, classify_regime_cases]
  rfl

/-- C7 witness: the regime trichotomy evaluated on the demo output row. -/
theorem C7_regime_classification_witness :
    Regimes.demoOutRow.gavi_regime_it =
      (if Regimes.demoOutRow.gavi_supported = "not supported by gavi" then "Never Gavi"
       else if Regimes.demoOutRow.gavi_spec = some "mic_former_gavi" ∨
           Regimes.demoOutRow.gavi_spec = some "mic_never_gavi"
       then "MICs approach / post-Gavi" else "Classic Gavi") :=
  C7_regime_classification Regimes.demoRaw Regimes.demoOut rfl Regimes.demoOutRow (by decide)

/-- A `filterMap` whose function succeeds everywhere keeps the length. -/
theorem filterMap_length_of_all_some {α β : Type} (f : α → Option β) :
    ∀ l : List α, (∀ a ∈ l, (f a).isSome = true) → (l.filterMap f).length = l.length := by
  intro l
  induction l with
  | nil => intro _; rfl
  | cons x xs ih =>
    intro h
    obtain ⟨b, hb⟩ := Option.isSome_iff_exists.mp (h x (List.mem_cons_self x xs))
    simp [List.filterMap_cons, hb, ih (fun a ha => h a (List.mem_cons_of_mem x ha))]

/-- Every retained classifier row has numeric coverage. -/
theorem retained_cov_some (df : List Regimes.GRRow) :
    ∀ r ∈ Regimes.retained df, (toNumericCell r.vax_fd_cov).isSome = true := by
  intro r hr
  unfold Regimes.retained at hr
  obtain ⟨k, hk, rfl⟩ := List.mem_map.mp hr
  exact (List.mem_filter.mp hk).2

/-- The retained rows are exactly as many as the numeric-coverage rows
of the raw input. -/
theorem retained_length (df : List Regimes.GRRow) :
    (Regimes.retained df).length =
      (df.filter (fun r => (toNumericCell r.vax_fd_cov).isSome)).length := by
  unfold Regimes.retained
  rw [List.length_map, List.filter_map, List.length_map]
  rfl

/-- Membership in `classic_by_country`. -/
theorem mem_classicCodes (ms : List Regimes.GRMid) (c : String) :
    c ∈ Regimes.classicCodes ms ↔
      ∃ m ∈ ms, m.country_code = some c ∧ m.gavi_regime_it = "Classic Gavi" := by
  unfold Regimes.classicCodes
  rw [List.mem_filterMap]
  constructor
  · rintro ⟨m, hm, hcode⟩
    have hf := List.mem_filter.mp hm
    exact ⟨m, hf.1, hcode, by simpa [beq_iff_eq] using hf.2⟩
  · rintro ⟨m, hm, hcode, hreg⟩
    exact ⟨m, List.mem_filter.mpr ⟨hm, by simp [hreg]⟩, hcode⟩

/-- Membership in `supported_by_country`. -/
theorem mem_supportedCodes (ms : List Regimes.GRMid) (c : String) :
    c ∈ Regimes.supportedCodes ms ↔
      ∃ m ∈ ms, m.country_code = some c ∧ m.gavi_supported ≠ "not supported by gavi" := by
  unfold Regimes.supportedCodes
  rw [List.mem_filterMap]
  constructor
  · rintro ⟨m, hm, hcode⟩
    have hf := List.mem_filter.mp hm
    refine ⟨m, hf.1, hcode, ?_⟩
    have := hf.2
    simp only [Bool.not_eq_true'] at this
    exact fun he => by simp [he] at this
  · rintro ⟨m, hm, hcode, hne⟩
    refine ⟨m, List.mem_filter.mpr ⟨hm, ?_⟩, hcode⟩
    simp only [Bool.not_eq_true']
    exact beq_eq_false_iff_ne.mpr hne

/-- The broadcast ever-classic flag of one output row, in terms of the
regime rows. -/
theorem outRow_classic_flag (ms : List Regimes.GRMid) (m : Regimes.GRMid) :
    ((Regimes.outRow ms m).ever_classic_gavi = 1) ↔
      ∃ mm ∈ ms, mm.country_code = m.country_code ∧ m.country_code ≠ none ∧
        mm.gavi_regime_it = "Classic Gavi" := by
  show ((if (match m.country_code with
             | some c => (Regimes.classicCodes ms).contains c
             | none => false) = true then (1 : Int) else 0) = 1) ↔ _
  cases hmc : m.country_code with
  | none => simp
  | some c =>
    simp only
    constructor
    · intro h1
      have hcmem : c ∈ Regimes.classicCodes ms := by
        by_cases hcc : (Regimes.classicCodes ms).contains c = true
        · rwa [List.contains, List.elem_iff] at hcc
        · rw [if_neg hcc] at h1
          exact absurd h1 (by decide)
      obtain ⟨mm, hmm, hmmc, hmmr⟩ := (mem_classicCodes ms c).mp hcmem
      exact ⟨mm, hmm, by rw [hmmc], by simp, hmmr⟩
    · rintro ⟨mm, hmm, hmmc, -, hmmr⟩
      have hcmem : c ∈ Regimes.classicCodes ms :=
        (mem_classicCodes ms c).mpr ⟨mm, hmm, hmmc, hmmr⟩
      rw [if_pos (by rw [List.contains, List.elem_iff]; exact hcmem)]

/-- The broadcast ever-supported flag of one output row. -/
theorem outRow_supported_flag (ms : List Regimes.GRMid) (m : Regimes.GRMid) :
    ((Regimes.outRow ms m).ever_supported_by_gavi = 1) ↔
      ∃ mm ∈ ms, mm.country_code = m.country_code ∧ m.country_code ≠ none ∧
        mm.gavi_supported ≠ "not supported by gavi" := by
  show ((if (match m.country_code with
             | some c => (Regimes.supportedCodes ms).contains c
             | none => false) = true then (1 : Int) else 0) = 1) ↔ _
  cases hmc : m.country_code with
  | none => simp
  | some c =>
    simp only
    constructor
    · intro h1
      have hcmem : c ∈ Regimes.supportedCodes ms := by
        by_cases hcc : (Regimes.supportedCodes ms).contains c = true
        · rwa [List.contains, List.elem_iff] at hcc
        · rw [if_neg hcc] at h1
          exact absurd h1 (by decide)
      obtain ⟨mm, hmm, hmmc, hmmr⟩ := (mem_supportedCodes ms c).mp hcmem
      exact ⟨mm, hmm, by rw [hmmc], by simp, hmmr⟩
    · rintro ⟨mm, hmm, hmmc, -, hmmr⟩
      have hcmem : c ∈ Regimes.supportedCodes ms :=
        (mem_supportedCodes ms c).mpr ⟨mm, hmm, hmmc, hmmr⟩
      rw [if_pos (by rw [List.contains, List.elem_iff]; exact hcmem)]

/-- C10 (confirmed): the classifier first drops every row whose
coverage is missing or non-numeric (the output has exactly one row per
numeric-coverage input row); the two ever-flags quantify only over the
retained rows; and on a concrete balanced two-year country whose only
would-be-Classic year has missing coverage, the output has one row,
ever_classic_gavi is 0, and the (country, 2015) row is gone, so the
balanced panel shape no longer holds. -/
theorem C10_classifier_restriction_and_flags :
    (∀ df out, Regimes.gaviRegimesStage df = Except.ok out →
      out.length = (df.filter (fun r => (toNumericCell r.vax_fd_cov).isSome)).length ∧
        ∀ r ∈ out,
          ((r.ever_classic_gavi = 1 ↔
            ∃ m ∈ out, m.country_code = r.country_code ∧ r.country_code ≠ none ∧
              m.gavi_regime_it = "Classic Gavi") ∧
          (r.ever_supported_by_gavi = 1 ↔
            ∃ m ∈ out, m.country_code = r.country_code ∧ r.country_code ≠ none ∧
              m.gavi_supported ≠ "not supported by gavi"))) ∧
      (Regimes.gaviRegimesStage Regimes.demoRaw = Except.ok Regimes.demoOut ∧
        Regimes.demoOut = [Regimes.demoOutRow] ∧
        (∃ r ∈ Regimes.demoRaw, r.country_code = some "AAA" ∧ r.year = some 2015 ∧
          r.gavi_supported = some "supported by gavi") ∧
        (¬ ∃ r ∈ Regimes.demoOut, r.year = some 2015) ∧
        Regimes.demoOutRow.ever_classic_gavi = 0) := by
  constructor
  · intro df out h
    obtain ⟨hout, hgs⟩ := gaviRegimesStage_ok df out h
    constructor
    · rw [hout, List.length_map]
      have h1 : (Regimes.midRows df).length = (Regimes.retained df).length := by
        unfold Regimes.midRows
        apply filterMap_length_of_all_some
        intro r hr
        have hcov := retained_cov_some df r hr
        have hgs2 := hgs r hr
        cases hgsv : r.gavi_supported with
        | none => rw [hgsv] at hgs2; simp at hgs2
        | some gs =>
          cases hcv : toNumericCell r.vax_fd_cov with
          | none => rw [hcv] at hcov; simp at hcov
          | some cov => simp [hgsv, hcv]
      rw [h1]
      exact retained_length df
    · intro r hr
      rw [hout] at hr
      obtain ⟨m, hm, rfl⟩ := List.mem_map.mp hr
      constructor
      · constructor
        · intro h1
          obtain ⟨mm, hmm, hmmc, hnone, hmmr⟩ :=
            (outRow_classic_flag (Regimes.midRows df) m).mp h1
          refine ⟨Regimes.outRow (Regimes.midRows df) mm, ?_, hmmc, hnone, hmmr⟩
          rw [hout]
          exact List.mem_map_of_mem _ hmm
        · rintro ⟨m2, hm2, hcode, hnone, hreg⟩
          rw [hout] at hm2
          obtain ⟨mm, hmm, rfl⟩ := List.mem_map.mp hm2
          exact (outRow_classic_flag (Regimes.midRows df) m).mpr ⟨mm, hmm, hcode, hnone, hreg⟩
      · constructor
        · intro h1
          obtain ⟨mm, hmm, hmmc, hnone, hmmr⟩ :=
            (outRow_supported_flag (Regimes.midRows df) m).mp h1
          refine ⟨Regimes.outRow (Regimes.midRows df) mm, ?_, hmmc, hnone, hmmr⟩
          rw [hout]
          exact List.mem_map_of_mem _ hmm
        · rintro ⟨m2, hm2, hcode, hnone, hreg⟩
          rw [hout] at hm2
          obtain ⟨mm, hmm, rfl⟩ := List.mem_map.mp hm2
          exact (outRow_supported_flag (Regimes.midRows df) m).mpr ⟨mm, hmm, hcode, hnone, hreg⟩
  · refine ⟨rfl, by decide, by decide, by decide, by decide⟩

/-- C10 witness: the restriction and the flag contract evaluated on the
demo input. -/
theorem C10_classifier_restriction_and_flags_witness :
    Regimes.demoOut.length =
        (Regimes.demoRaw.filter (fun r => (toNumericCell r.vax_fd_cov).isSome)).length ∧
      (Regimes.demoOutRow.ever_classic_gavi = 1 ↔
        ∃ m ∈ Regimes.demoOut, m.country_code = Regimes.demoOutRow.country_code ∧
          Regimes.demoOutRow.country_code ≠ none ∧ m.gavi_regime_it = "Classic Gavi") :=
  ⟨((C10_classifier_restriction_and_flags.1 Regimes.demoRaw Regimes.demoOut rfl).1),
    ((C10_classifier_restriction_and_flags.1 Regimes.demoRaw Regimes.demoOut rfl).2
      Regimes.demoOutRow (by decide)).1⟩

/-- A successful panel assembly is the balanced panel with the derived
`gavi_supported` column. -/
theorem combinePart1_ok (income : List Part1.IncomeRow) (gavi : List Part1.GaviRow)
    (panel : List Part1.PanelRow) (h : Part1.combinePart1 income gavi = Except.ok panel) :
    panel = (Part1.balancePanel (Part1.outerMerge income gavi)).map Part1.addGaviSupported := by
  unfold Part1.combinePart1 at h
  by_cases hd : Part1.hasDupKeys (Part1.outerMerge income gavi) = true
  · rw [if_pos hd] at h
    cases h
  · rw [if_neg hd] at h
    injection h with h
    exact h.symm

/-- A balanced row of key `(c, y)` carries exactly that key. -/
theorem balRow_key (merged : List Part1.MergedRow) (c : String) (y : Int) :
    (Part1.addGaviSupported (Part1.mkBalRow merged c y)).country_code = some c ∧
      (Part1.addGaviSupported (Part1.mkBalRow merged c y)).year = some y := by
  unfold Part1.mkBalRow Part1.addGaviSupported
  cases h : merged.find? (fun m => decide (m.country_code = some c ∧ m.year = some y)) <;> simp

/-- Filtering a per-code block list by one code keeps exactly that
code's block (the code list being duplicate-free). -/
theorem flatMap_filter_code (F : String → List Part1.PanelRow)
    (hF : ∀ c2 : String, ∀ r ∈ F c2, r.country_code = some c2) (c : String) :
    ∀ L : List String, L.Nodup →
      (L.flatMap F).filter (fun r => decide (r.country_code = some c)) =
        if c ∈ L then F c else [] := by
  intro L
  induction L with
  | nil => intro _; simp
  | cons c2 L2 ih =>
    intro hnd
    obtain ⟨hnotmem, hnd2⟩ := List.nodup_cons.mp hnd
    rw [List.flatMap_cons, List.filter_append]
    by_cases hc : c2 = c
    · subst hc
      have hfirst : (F c2).filter (fun r => decide (r.country_code = some c2)) = F c2 := by
        rw [List.filter_eq_self]
        intro a ha
        simp [hF c2 a ha]
      have hrest : (L2.flatMap F).filter (fun r => decide (r.country_code = some c2)) = [] := by
        rw [ih hnd2, if_neg hnotmem]
      rw [hfirst, hrest, List.append_nil, if_pos (List.mem_cons_self c2 L2)]
    · have hfirst : (F c2).filter (fun r => decide (r.country_code = some c)) = [] := by
        rw [List.filter_eq_nil_iff]
        intro a ha
        simp [hF c2 a ha, hc]
      rw [hfirst, List.nil_append, ih hnd2]
      have hmem : (c ∈ c2 :: L2) ↔ (c ∈ L2) := by
        constructor
        · intro hm
          rcases List.mem_cons.mp hm with he | hm2
          · exact absurd he.symm hc
          · exact hm2
        · exact List.mem_cons_of_mem c2
      exact (if_congr hmem rfl rfl).symm

/-- The years of one code's block are exactly the balanced year range. -/
theorem years_of_block (f : Int → Part1.PanelRow) (hf : ∀ y, (f y).year = some y) :
    ∀ l : List Int, (l.map f).filterMap (fun r => r.year) = l := by
  intro l
  induction l with
  | nil => rfl
  | cons y ys ih => simp [List.map_cons, List.filterMap_cons, hf y, ih]

/-- The balanced year range has no repeats. -/
theorem allYears_nodup : Part1.allYears.Nodup := by decide

/-- Every country code of the balanced panel shows exactly the full
year count. -/
theorem countDistinct_of_mem (merged : List Part1.MergedRow) (c : String)
    (hc : c ∈ Part1.allCodes merged) :
    Part1.countDistinctYears ((Part1.balancePanel merged).map Part1.addGaviSupported) c =
      Part1.expected_n := by
  unfold Part1.countDistinctYears Part1.balancePanel
  rw [List.map_flatMap]
  rw [flatMap_filter_code
      (fun c2 => List.map Part1.addGaviSupported (Part1.allYears.map (Part1.mkBalRow merged c2)))
      (fun c2 r hr => by
        obtain ⟨r0, hr0, rfl⟩ := List.mem_map.mp hr
        obtain ⟨y, _, rfl⟩ := List.mem_map.mp hr0
        exact (balRow_key merged c2 y).1)
      c (Part1.allCodes merged) (List.nodup_dedup _), if_pos hc]
  rw [List.map_map]
  rw [years_of_block (Part1.addGaviSupported ∘ Part1.mkBalRow merged c)
      (fun y => (balRow_key merged c y).2) Part1.allYears]
  rw [List.dedup_eq_self.mpr allYears_nodup]
  rfl

/-- Every row of the balanced panel carries a code of `allCodes`. -/
theorem panel_row_code (merged : List Part1.MergedRow) (r : Part1.PanelRow)
    (hr : r ∈ (Part1.balancePanel merged).map Part1.addGaviSupported) :
    ∃ c2 ∈ Part1.allCodes merged, r.country_code = some c2 := by
  obtain ⟨r0, hr0, rfl⟩ := List.mem_map.mp hr
  unfold Part1.balancePanel at hr0
  obtain ⟨c2, hc2, hr0b⟩ := List.mem_flatMap.mp hr0
  obtain ⟨y, _, rfl⟩ := List.mem_map.mp hr0b
  exact ⟨c2, hc2, (balRow_key merged c2 y).1⟩

/-- The year-count diagnostic of the balanced panel is empty. -/
theorem badCountries_nil (merged : List Part1.MergedRow) :
    Part1.badCountries ((Part1.balancePanel merged).map Part1.addGaviSupported) = [] := by
  unfold Part1.badCountries
  rw [List.filter_eq_nil_iff]
  intro c hcmem
  rw [List.mem_dedup] at hcmem
  obtain ⟨r, hr, hrc⟩ := List.mem_filterMap.mp hcmem
  obtain ⟨c2, hc2, hc2eq⟩ := panel_row_code merged r hr
  have hceq : c2 = c := by
    rw [hc2eq] at hrc
    injection hrc
  subst hceq
  simp [countDistinct_of_mem merged c2 hc2]

/-- A code of either input table appears in the outer merge. -/
theorem code_in_merge (income : List Part1.IncomeRow) (gavi : List Part1.GaviRow) (c : String) :
    ((∃ r ∈ income, r.country_code = some c) ∨ (∃ g ∈ gavi, g.country_code = some c)) →
      ∃ m ∈ Part1.outerMerge income gavi, m.country_code = some c := by
  intro h
  rcases h with ⟨i, hi, hic⟩ | ⟨g, hg, hgc⟩
  · rcases hms : Part1.gaviMatches gavi i with _ | ⟨g0, gs⟩
    · refine ⟨Part1.mkMergedLeft i, ?_, hic⟩
      apply List.mem_append_left
      rw [List.mem_flatMap]
      refine ⟨i, hi, ?_⟩
      unfold Part1.mergeBlock
      rw [hms]
      simp
    · refine ⟨Part1.mkMergedBoth i g0, ?_, hic⟩
      apply List.mem_append_left
      rw [List.mem_flatMap]
      refine ⟨i, hi, ?_⟩
      unfold Part1.mergeBlock
      rw [hms]
      simp
  · by_cases hex : ∃ i ∈ income, i.country_code = g.country_code ∧ i.year = g.year
    · obtain ⟨i, hi, hieq⟩ := hex
      have hgin : g ∈ Part1.gaviMatches gavi i :=
        List.mem_filter.mpr ⟨hg, by simp [hieq.1.symm, hieq.2.symm]⟩
      refine ⟨Part1.mkMergedBoth i g, ?_, ?_⟩
      · apply List.mem_append_left
        rw [List.mem_flatMap]
        refine ⟨i, hi, ?_⟩
        unfold Part1.mergeBlock
        rcases hms : Part1.gaviMatches gavi i with _ | ⟨g0, gs⟩
        · rw [hms] at hgin
          simp at hgin
        · rw [hms] at hgin
          simp only [List.isEmpty_cons, Bool.false_eq_true, if_false, ite_false]
          exact List.mem_map_of_mem (Part1.mkMergedBoth i) hgin
      · show i.country_code = some c
        rw [hieq.1, hgc]
    · refine ⟨Part1.mkMergedRight g, ?_, hgc⟩
      apply List.mem_append_right
      apply List.mem_map_of_mem
      exact List.mem_filter.mpr ⟨hg, by simpa using hex⟩

/-- C1 (confirmed): after the Panel Assembler, every country code of
either input table has exactly `Y_MAX - Y_MIN + 1 = 18` distinct years;
the year-count check is an always-empty printed diagnostic and the
output is the balanced panel itself, with no row dropped by the check. -/
theorem C1_panel_balance (income : List Part1.IncomeRow) (gavi : List Part1.GaviRow)
    (panel : List Part1.PanelRow) (h : Part1.combinePart1 income gavi = Except.ok panel) :
    (∀ c : String,
      ((∃ r ∈ income, r.country_code = some c) ∨ (∃ g ∈ gavi, g.country_code = some c)) →
        Part1.countDistinctYears panel c = 18) ∧
      Part1.badCountries panel = [] ∧
      panel = (Part1.balancePanel (Part1.outerMerge income gavi)).map Part1.addGaviSupported := by
  have hpanel := combinePart1_ok income gavi panel h
  subst hpanel
  refine ⟨?_, badCountries_nil _, rfl⟩
  intro c hc
  obtain ⟨m, hm, hmc⟩ := code_in_merge income gavi c hc
  have hcodes : c ∈ Part1.allCodes (Part1.outerMerge income gavi) :=
    List.mem_dedup.mpr (List.mem_filterMap.mpr ⟨m, hm, hmc⟩)
  exact countDistinct_of_mem (Part1.outerMerge income gavi) c hcodes

/-- C1 witness: both example codes get 18 years and the diagnostic is
empty on the example panel. -/
theorem C1_panel_balance_witness :
    Part1.countDistinctYears Part1.panelEx "AAA" = 18 ∧
      Part1.countDistinctYears Part1.panelEx "BBB" = 18 ∧
      Part1.badCountries Part1.panelEx = [] :=
  ⟨(C1_panel_balance Part1.incomeEx Part1.gaviEx Part1.panelEx rfl).1 "AAA"
      (Or.inl (by decide)),
    (C1_panel_balance Part1.incomeEx Part1.gaviEx Part1.panelEx rfl).1 "BBB"
      (Or.inr (by decide)),
    (C1_panel_balance Part1.incomeEx Part1.gaviEx Part1.panelEx rfl).2.1⟩

end GaviVax
